import Mathlib

/-!
Shallow embedding of `lib/HuePlatform.js` from homebridge-hue: configuration
resolution performed by the `HuePlatform` constructor, bridge discovery
(`HuePlatform.prototype.findBridges`) and accessory aggregation with its
heartbeat scheduler (`HuePlatform.prototype.accessories`).

Modelling conventions:
* a JavaScript callback invoked with `null` is `Option.none`; a callback
  invoked with a list is `Option.some`;
* the `request` network call is replaced by an explicit `DiscoveryOutcome`
  argument describing what the transport would have delivered;
* each per-bridge probe (`bridge.accessories()`, defined in the external
  `HueBridge` module) is an oracle argument mapping the bridge address to
  an `Except` outcome; `Promise.all` becomes `sequenceProbes`, which is
  fail-fast in enumeration order;
* log output is a list of `LogEntry` values, in emission order.
-/

set_option autoImplicit false

/-- An entry of the meethue nupnp discovery response.  The JSON object may
lack the `internalipaddress` field, which we model as `none`. -/
structure NupnpEntry where
  internalipaddress : Option String
deriving DecidableEq, Repr

/-- An accessory as the aggregator sees it: opaque except for the `name`
field used by the cap-overflow log message. -/
structure Accessory where
  name : String
deriving DecidableEq, Repr

/-- A JavaScript error as consumed by the `.catch` handler: only its
(possibly absent or falsy) `message` field is inspected. -/
structure JsError where
  message : Option String
deriving DecidableEq, Repr

/-- One log line, tagged with its level. -/
inductive LogEntry where
  | error (msg : String)
  | debug (msg : String)
deriving DecidableEq, Repr

/-- Whether a log entry was emitted through `log.error`. -/
def LogEntry.isError : LogEntry → Bool
  | .error _ => true
  | .debug _ => false

/-- What the transport layer delivered for the single meethue portal
request: either a communication error or a response with a status code and
a JSON body (a list of entries). -/
inductive DiscoveryOutcome where
  | transportError (err : String)
  | response (statusCode : Nat) (body : List NupnpEntry)
deriving DecidableEq, Repr

/-- The `config.host` value: a single address string or a list of them. -/
inductive HostConfig where
  | single (host : String)
  | list (hosts : List String)
deriving DecidableEq, Repr

/-- Raw `config.json` platform object, with every key optional (`none` is
JavaScript `undefined`).  Boolean-documented keys carry `Bool`, the two
numeric keys carry `Nat`. -/
structure RawConfig where
  alllights : Option Bool
  philipslights : Option Bool
  heartrate : Option Nat
  timeout : Option Nat
  lights : Option Bool
  ct : Option Bool
  fakecolor : Option Bool
  groups : Option Bool
  group0 : Option Bool
  rooms : Option Bool
  sensors : Option Bool
  excludeSensorTypes : Option (List String)
  schedules : Option Bool
  rules : Option Bool
  clipsensors : Option Bool
  host : Option HostConfig
deriving DecidableEq, Repr

/-- The resolved `this.config` record built by the `HuePlatform`
constructor.  `timeout` is in milliseconds.  `excludeSensorTypes` is the
key set of the constructed object, as a list (membership is what matters).
`hosts` is absent when `config.host` is falsy. -/
structure Config where
  heartrate : Nat
  timeout : Nat
  philipslights : Bool
  lights : Bool
  ct : Bool
  fakecolor : Bool
  groups : Bool
  group0 : Bool
  rooms : Bool
  sensors : Bool
  excludeSensorTypes : List String
  schedules : Bool
  rules : Bool
  hosts : Option (List String)
deriving DecidableEq, Repr

/-- `config.host` handling from the constructor: a truthy single value is
wrapped in a one-element array, an array is taken as is, a falsy value
(undefined, or the empty string) leaves `this.config.hosts` unset. -/
def resolveHosts : Option HostConfig → Option (List String)
  | none => none
  | some (.single h) => if h = "" then none else some [h]
  | some (.list hs) => some hs

/-- `x || d` on an optional boolean config key with default `d := false`:
`undefined` and `false` are falsy. -/
def boolOr (x : Option Bool) (d : Bool) : Bool :=
  match x with
  | none => d
  | some b => b || d

/-- `x || d` on an optional numeric config key: `undefined` and `0` are
falsy and give the default. -/
def natOr (x : Option Nat) (d : Nat) : Nat :=
  match x with
  | none => d
  | some n => if n = 0 then d else n

/-- The deprecation warning logged for `config.alllights`. -/
def alllightsWarning : String :=
  "config.json: warning: \"alllights\" has been deprecated"

/-- The deprecation warning logged for `config.clipsensors`. -/
def clipsensorsWarning : String :=
  "config.json: warning: \"clipsensors\" has been deprecated"

/-- Configuration resolution performed by the `HuePlatform` constructor
(lines 103-139 of `HuePlatform.js`): deprecation shims, defaulting of every
key, normalization of `excludeSensorTypes` and `host`.  Returns the
resolved config together with the warnings logged, in order. -/
def resolveConfig (rc : RawConfig) : Config × List String :=
  let warnA : List String :=
    match rc.alllights with
    | some _ => [alllightsWarning]
    | none => []
  let philipslightsEff : Option Bool :=
    match rc.alllights with
    | some b => some b
    | none => rc.philipslights
  let baseExcluded : List String :=
    match rc.excludeSensorTypes with
    | some types => types
    | none => []
  let clipDeprecated : Bool := rc.clipsensors = some false
  let warnC : List String := if clipDeprecated then [clipsensorsWarning] else []
  let excluded : List String :=
    if clipDeprecated then baseExcluded ++ ["CLIP", "Geofence"] else baseExcluded
  ({ heartrate := natOr rc.heartrate 5
     timeout := 1000 * natOr rc.timeout 5
     philipslights := boolOr philipslightsEff false
     lights := boolOr rc.lights false
     ct := boolOr rc.ct false
     fakecolor := boolOr rc.fakecolor false
     groups := boolOr rc.groups false
     group0 := if rc.group0 = some false then false else true
     rooms := if rc.rooms = some false then false else true
     sensors := boolOr rc.sensors false
     excludeSensorTypes := excluded
     schedules := boolOr rc.schedules false
     rules := boolOr rc.rules false
     hosts := resolveHosts rc.host }, warnA ++ warnC)

/-- How a bridge address renders in a format string: `undefined` when the
field was absent. -/
def showAddress : Option String → String
  | some s => s
  | none => "undefined"

/-- `HuePlatform.prototype.findBridges`: with static hosts configured,
synchronously build one `{internalipaddress: host}` descriptor per host;
otherwise consult the meethue portal, mapping a transport error, a non-200
status, or an empty body to a single error log and a `null` callback, and
passing a non-empty body through unchanged.  First component is the value
the callback receives, second the logs emitted. -/
def findBridges (hosts : Option (List String)) (out : DiscoveryOutcome) :
    Option (List NupnpEntry) × List LogEntry :=
  match hosts with
  | some hs => (some (hs.map fun h => { internalipaddress := some h }), [])
  | none =>
    let dbg := LogEntry.debug "contacting meethue portal"
    match out with
    | .transportError e =>
        (none, [dbg, .error ("meethue portal: communication error " ++ e)])
    | .response statusCode body =>
        if statusCode ≠ 200 then
          (none, [dbg, .error ("meethue portal: status " ++ toString statusCode)])
        else if body.length = 0 then
          (none, [dbg, .error "meethue portal: no bridges registered"])
        else
          (some body, [dbg])

/-- `Promise.all` over the probe promises: fail-fast, rejecting with the
first failing probe's error, resolving with the list of all results. -/
def sequenceProbes : List (Except JsError (List Accessory)) →
    Except JsError (List (List Accessory))
  | [] => .ok []
  | .error e :: _ => .error e
  | .ok l :: rest =>
    match sequenceProbes rest with
    | .error e => .error e
    | .ok ls => .ok (l :: ls)

/-- The error logged when the cap drops accessory `a`. -/
def tooManyLog (a : Accessory) : LogEntry :=
  .error ("too many accessories, ignoring " ++ a.name)

/-- The cap-enforcement loop
`while (accessoryList.length > 99) { const a = accessoryList.pop(); log(...) }`:
pops from the tail one at a time, logging each dropped accessory, until at
most 99 entries remain.  Returns the remaining list and the logs in
emission order. -/
def popExcess (l : List Accessory) : List Accessory × List LogEntry :=
  if h : l.length > 99 then
    match l.getLast? with
    | some a =>
      let r := popExcess l.dropLast
      (r.1, tooManyLog a :: r.2)
    | none => (l, [])
  else
    (l, [])
termination_by l.length
decreasing_by
  simp only [List.length_dropLast]
  omega

/-- Everything observable about one run of
`HuePlatform.prototype.accessories`. -/
structure AggregateResult where
  /-- The list handed to the homebridge callback; `none` when the callback
  is never invoked (discovery failure or probe failure). -/
  callbackValue : Option (List Accessory)
  /-- Addresses of the `HueBridge` objects pushed onto `this.bridges`. -/
  bridges : List (Option String)
  /-- Whether `setInterval` was called to start the heartbeat. -/
  schedulerStarted : Bool
  /-- All log lines emitted during the run, in order. -/
  logs : List LogEntry
deriving DecidableEq, Repr

/-- `HuePlatform.prototype.accessories` (lines 177-219): run discovery; on
a `null` result do nothing; otherwise create one bridge per entry, probe
them all concurrently, join fail-fast; on join failure log the error
message when truthy and stop; on success flatten the per-bridge lists in
enumeration order, start the heartbeat iff the flattened list is
non-empty, then enforce the 99-accessory cap and invoke the callback. -/
def accessories (hosts : Option (List String)) (out : DiscoveryOutcome)
    (probeOf : Option String → Except JsError (List Accessory)) :
    AggregateResult :=
  match findBridges hosts out with
  | (none, logs) =>
      { callbackValue := none, bridges := [], schedulerStarted := false,
        logs := logs }
  | (some entries, logs) =>
      let bridges := entries.map (fun e => e.internalipaddress)
      let probeLogs := bridges.map
        (fun b => LogEntry.debug ("probing bridge at " ++ showAddress b))
      let baseLogs := logs ++ probeLogs
      match sequenceProbes (bridges.map probeOf) with
      | .error e =>
          { callbackValue := none, bridges := bridges,
            schedulerStarted := false,
            logs := baseLogs ++
              (match e.message with
               | some m => [LogEntry.error m]
               | none => []) }
      | .ok lists =>
          let accessoryList := lists.flatten
          let capped := popExcess accessoryList
          { callbackValue := some capped.1, bridges := bridges,
            schedulerStarted := decide (accessoryList.length > 0),
            logs := baseLogs ++ capped.2 }

/-- Number of seconds in a week, the heartbeat wrap modulus. -/
def weekSeconds : Int := 7 * 24 * 3600

/-- JavaScript `a % n` (remainder takes the sign of the dividend). -/
def jsRem (a n : Int) : Int :=
  if 0 ≤ a then a % n else -((-a) % n)

/-- One firing of the heartbeat interval on the counter:
`beat += 1; beat %= 7 * 24 * 3600`. -/
def heartbeatTick (beat : Int) : Int :=
  jsRem (beat + 1) weekSeconds

/-- The beat counter after `n` firings of the interval; `let beat = -1`
before the first firing. -/
def beatAfter : Nat → Int
  | 0 => -1
  | n + 1 => heartbeatTick (beatAfter n)

/-- The heartbeat notifications dispatched by firing number `n` (1-based):
`for (const bridge of this.bridges) bridge.heartbeat(beat)` with the
counter value current after that firing's increment. -/
def fireDispatch (n : Nat) (bridges : List (Option String)) :
    List (Option String × Int) :=
  bridges.map (fun b => (b, beatAfter n))

/-! ### Helper lemmas -/

theorem popExcess_le (l : List Accessory) (h : l.length ≤ 99) :
    popExcess l = (l, []) := by
  rw [popExcess]
  simp [Nat.not_lt.mpr h]

theorem popExcess_closed_aux (n : Nat) :
    ∀ (l : List Accessory), l.length ≤ n →
      popExcess l = (l.take 99, ((l.drop 99).reverse).map tooManyLog) := by
  induction n with
  | zero =>
    intro l hl
    have hz : l.length ≤ 99 := by omega
    rw [popExcess_le l hz, List.take_of_length_le hz, List.drop_eq_nil_of_le hz]
    simp
  | succ n ih =>
    intro l hl
    by_cases h : l.length ≤ 99
    · rw [popExcess_le l h, List.take_of_length_le h, List.drop_eq_nil_of_le h]
      simp
    · have h99 : 99 < l.length := Nat.lt_of_not_le h
      have hne : l ≠ [] := by
        intro e
        subst e
        simp at h99
      cases hg : l.getLast? with
      | none =>
        rw [List.getLast?_eq_none_iff] at hg
        exact absurd hg hne
      | some a =>
        obtain ⟨ys, rfl⟩ := List.getLast?_eq_some_iff.mp hg
        have hys : 99 ≤ ys.length := by
          simp at h99
          omega
        have hlen : ys.length ≤ n := by
          simp at hl
          omega
        rw [popExcess]
        simp only [dif_pos h99, List.getLast?_concat, List.dropLast_concat]
        rw [ih ys hlen]
        rw [List.take_append_of_le_length hys, List.drop_append_of_le_length hys]
        simp

theorem popExcess_closed (l : List Accessory) :
    popExcess l = (l.take 99, ((l.drop 99).reverse).map tooManyLog) :=
  popExcess_closed_aux l.length l (Nat.le_refl _)

theorem sequenceProbes_error_of_mem (ps : List (Except JsError (List Accessory)))
    (e : JsError) (he : Except.error e ∈ ps) :
    ∃ e2, sequenceProbes ps = .error e2 := by
  induction ps with
  | nil => cases he
  | cons p rest ih =>
    cases p with
    | error e1 => exact ⟨e1, rfl⟩
    | ok l =>
      have hr : Except.error e ∈ rest := by
        cases he with
        | tail _ h => exact h
      obtain ⟨e2, h2⟩ := ih hr
      refine ⟨e2, ?_⟩
      simp [sequenceProbes, h2]

theorem findBridges_ok_no_error (hosts : Option (List String))
    (out : DiscoveryOutcome) (entries : List NupnpEntry)
    (logs0 : List LogEntry)
    (hf : findBridges hosts out = (some entries, logs0)) :
    logs0.filter LogEntry.isError = [] := by
  cases hosts with
  | some hs =>
    simp [findBridges] at hf
    simp [hf.2]
  | none =>
    cases out with
    | transportError e => simp [findBridges] at hf
    | response statusCode body =>
      by_cases hs : statusCode = 200
      · subst hs
        by_cases hb : body.length = 0
        · simp [findBridges, hb] at hf
        · simp [findBridges, hb] at hf
          rw [← hf.2]
          simp [LogEntry.isError]
      · simp [findBridges, hs] at hf

/-- The debug lines logged while constructing and probing the bridges. -/
def probeLogsOf (entries : List NupnpEntry) : List LogEntry :=
  (entries.map (fun e => e.internalipaddress)).map
    (fun b => LogEntry.debug ("probing bridge at " ++ showAddress b))

/-- What the `.catch` handler logs for a rejection `e`. -/
def catchLogs (e : JsError) : List LogEntry :=
  match e.message with
  | some m => [LogEntry.error m]
  | none => []

theorem accessories_of_findBridges_none (hosts : Option (List String))
    (out : DiscoveryOutcome)
    (probeOf : Option String → Except JsError (List Accessory))
    (logs0 : List LogEntry)
    (hf : findBridges hosts out = (none, logs0)) :
    accessories hosts out probeOf =
      { callbackValue := none, bridges := [], schedulerStarted := false,
        logs := logs0 } := by
  unfold accessories
  rw [hf]

theorem accessories_of_probe_error (hosts : Option (List String))
    (out : DiscoveryOutcome)
    (probeOf : Option String → Except JsError (List Accessory))
    (entries : List NupnpEntry) (logs0 : List LogEntry) (e : JsError)
    (hf : findBridges hosts out = (some entries, logs0))
    (hp : sequenceProbes ((entries.map (fun en => en.internalipaddress)).map probeOf)
        = .error e) :
    accessories hosts out probeOf =
      { callbackValue := none,
        bridges := entries.map (fun en => en.internalipaddress),
        schedulerStarted := false,
        logs := (logs0 ++ probeLogsOf entries) ++ catchLogs e } := by
  unfold accessories
  rw [hf]
  simp only [hp, probeLogsOf, catchLogs]

theorem accessories_of_probe_ok (hosts : Option (List String))
    (out : DiscoveryOutcome)
    (probeOf : Option String → Except JsError (List Accessory))
    (entries : List NupnpEntry) (logs0 : List LogEntry)
    (lists : List (List Accessory))
    (hf : findBridges hosts out = (some entries, logs0))
    (hp : sequenceProbes ((entries.map (fun en => en.internalipaddress)).map probeOf)
        = .ok lists) :
    accessories hosts out probeOf =
      { callbackValue := some (lists.flatten.take 99),
        bridges := entries.map (fun en => en.internalipaddress),
        schedulerStarted := decide (lists.flatten.length > 0),
        logs := (logs0 ++ probeLogsOf entries)
          ++ ((lists.flatten.drop 99).reverse).map tooManyLog } := by
  unfold accessories
  rw [hf]
  simp only [hp, probeLogsOf, popExcess_closed]

theorem beatAfter_succ (n : Nat) : beatAfter (n + 1) = (n : Int) % 604800 := by
  induction n with
  | zero =>
    show heartbeatTick (-1) = 0 % 604800
    norm_num [heartbeatTick, jsRem, weekSeconds]
  | succ n ih =>
    show heartbeatTick (beatAfter (n + 1)) = _
    rw [ih]
    unfold heartbeatTick jsRem weekSeconds
    have h0 : (0 : Int) ≤ (n : Int) % 604800 + 1 := by
      have := Int.emod_nonneg (n : Int) (by norm_num : (604800 : Int) ≠ 0)
      omega
    rw [if_pos h0]
    push_cast
    omega

theorem natOr_ne_zero (x : Option Nat) : natOr x 5 ≠ 0 := by
  cases x with
  | none => simp [natOr]
  | some n =>
    unfold natOr
    by_cases h : n = 0
    · simp [h]
    · simp [h]

/-- A raw platform config with every key left undefined. -/
def rcEmpty : RawConfig :=
  { alllights := none, philipslights := none, heartrate := none,
    timeout := none, lights := none, ct := none, fakecolor := none,
    groups := none, group0 := none, rooms := none, sensors := none,
    excludeSensorTypes := none, schedules := none, rules := none,
    clipsensors := none, host := none }

/-! ### Claim theorems -/

/-- C5: the heartbeat counter starts at −1; each firing of the interval
increments it by 1 and wraps it modulo 604800, so after firing `n + 1` it
equals `n % 604800` (the sequence 0, 1, …, 604799, 0, … with no skipped or
repeated values, as the successor conjunct shows), it lies in
`[0, 604800)` from the first firing on, and each firing dispatches to
every bridge in the platform's bridge list one heartbeat notification
carrying the current beat value. -/
theorem heartbeat_beat_sequence (n : Nat) (bridges : List (Option String)) :
    beatAfter 0 = -1
    ∧ beatAfter (n + 1) = (n : Int) % 604800
    ∧ 0 ≤ beatAfter (n + 1)
    ∧ beatAfter (n + 1) < 604800
    ∧ beatAfter (n + 2)
        = (if beatAfter (n + 1) = 604799 then 0 else beatAfter (n + 1) + 1)
    ∧ fireDispatch (n + 1) bridges
        = bridges.map (fun b => (b, beatAfter (n + 1))) := by
  refine ⟨rfl, beatAfter_succ n, ?_, ?_, ?_, rfl⟩
  · rw [beatAfter_succ]
    exact Int.emod_nonneg _ (by norm_num)
  · rw [beatAfter_succ]
    exact Int.emod_lt_of_pos _ (by norm_num)
  · rw [beatAfter_succ, beatAfter_succ]
    push_cast
    split_ifs <;> omega

/-- C7: with a non-empty static host list configured, `findBridges`
returns exactly those hosts as descriptors, one per host and in
configuration order, logs nothing, and its result is independent of the
network transport outcome (no network request is consulted). -/
theorem findBridges_static_hosts (hs : List String) (out : DiscoveryOutcome)
    (hne : hs ≠ []) :
    findBridges (some hs) out
      = (some (hs.map fun h => { internalipaddress := some h }), [])
    ∧ (hs.map fun h => ({ internalipaddress := some h } : NupnpEntry)).length
        = hs.length
    ∧ ∀ out2, findBridges (some hs) out2 = findBridges (some hs) out := by
  exact ⟨rfl, hs.length_map _, fun _ => rfl⟩

/-- Witness for C7 at the spec's example host list `["10.0.0.5"]`. -/
theorem findBridges_static_hosts_witness :
    findBridges (some ["10.0.0.5"]) (DiscoveryOutcome.response 200 [])
      = (some [{ internalipaddress := some "10.0.0.5" }], []) :=
  (findBridges_static_hosts ["10.0.0.5"] (DiscoveryOutcome.response 200 [])
    (by simp)).1

/-- C9: a defined deprecated `alllights` key logs the deprecation warning
and determines `philipslights` exactly (lossless); `clipsensors = false`
logs the deprecation warning and puts both `CLIP` and `Geofence` into the
excluded sensor type set. -/
theorem resolveConfig_deprecated_keys (rc : RawConfig) (b : Bool) :
    (rc.alllights = some b →
      alllightsWarning ∈ (resolveConfig rc).2
      ∧ (resolveConfig rc).1.philipslights = b)
    ∧ (rc.clipsensors = some false →
      clipsensorsWarning ∈ (resolveConfig rc).2
      ∧ "CLIP" ∈ (resolveConfig rc).1.excludeSensorTypes
      ∧ "Geofence" ∈ (resolveConfig rc).1.excludeSensorTypes) := by
  constructor
  · intro h
    unfold resolveConfig
    simp [h, boolOr]
  · intro h
    unfold resolveConfig
    simp [h]

/-- Witness for C9: both deprecated keys set. -/
theorem resolveConfig_deprecated_keys_witness :
    alllightsWarning ∈
      (resolveConfig
        { rcEmpty with alllights := some true, clipsensors := some false }).2
    ∧ (resolveConfig
        { rcEmpty with alllights := some true,
                       clipsensors := some false }).1.philipslights = true
    ∧ clipsensorsWarning ∈
      (resolveConfig
        { rcEmpty with alllights := some true, clipsensors := some false }).2
    ∧ "CLIP" ∈
      (resolveConfig
        { rcEmpty with alllights := some true,
                       clipsensors := some false }).1.excludeSensorTypes
    ∧ "Geofence" ∈
      (resolveConfig
        { rcEmpty with alllights := some true,
                       clipsensors := some false }).1.excludeSensorTypes := by
  have h := resolveConfig_deprecated_keys
    { rcEmpty with alllights := some true, clipsensors := some false } true
  have ha := h.1 rfl
  have hc := h.2 rfl
  exact ⟨ha.1, ha.2, hc.1, hc.2.1, hc.2.2⟩

/-- C10: a present-but-falsy `heartrate` or `timeout` (value 0) resolves
to the default 5, so the resolved heartrate is never 0 and the resolved
timeout is never 0 milliseconds; resolution is total and never fails. -/
theorem resolveConfig_falsy_defaults (rc : RawConfig) :
    (resolveConfig rc).1.heartrate ≠ 0
    ∧ (resolveConfig rc).1.timeout ≠ 0
    ∧ (rc.heartrate = some 0 → (resolveConfig rc).1.heartrate = 5)
    ∧ (rc.timeout = some 0 → (resolveConfig rc).1.timeout = 5000) := by
  refine ⟨?_, ?_, ?_, ?_⟩
  · simp only [resolveConfig]
    exact natOr_ne_zero rc.heartrate
  · simp only [resolveConfig]
    exact Nat.mul_ne_zero (by norm_num) (natOr_ne_zero rc.timeout)
  · intro h
    simp [resolveConfig, h, natOr]
  · intro h
    simp [resolveConfig, h, natOr]

/-- Witness for C10: `heartrate` and `timeout` both configured as 0. -/
theorem resolveConfig_falsy_defaults_witness :
    (resolveConfig
      { rcEmpty with heartrate := some 0, timeout := some 0 }).1.heartrate = 5
    ∧ (resolveConfig
      { rcEmpty with heartrate := some 0, timeout := some 0 }).1.timeout
        = 5000 := by
  have h := resolveConfig_falsy_defaults
    { rcEmpty with heartrate := some 0, timeout := some 0 }
  exact ⟨h.2.2.1 rfl, h.2.2.2 rfl⟩

theorem probeLogsOf_no_error (entries : List NupnpEntry) :
    (probeLogsOf entries).filter LogEntry.isError = [] := by
  unfold probeLogsOf
  induction entries with
  | nil => rfl
  | cons e rest ih => simpa [LogEntry.isError] using ih

theorem tooManyLog_filter (l : List Accessory) :
    (l.map tooManyLog).filter LogEntry.isError = l.map tooManyLog := by
  induction l with
  | nil => rfl
  | cons a rest ih => simpa [tooManyLog, LogEntry.isError] using ih

theorem catchLogs_filter (e : JsError) :
    (catchLogs e).filter LogEntry.isError = catchLogs e := by
  unfold catchLogs
  cases e.message <;> simp [LogEntry.isError]

/-- C6: on a successful aggregation with per-bridge accessory counts
summing to at most 99, the callback receives the per-bridge lists
flattened unchanged: the length is exactly the sum, bridges appear in
enumeration order as produced by discovery, and each bridge's internal
order is preserved within its segment. -/
theorem aggregate_under_cap (hosts : Option (List String))
    (out : DiscoveryOutcome)
    (probeOf : Option String → Except JsError (List Accessory))
    (entries : List NupnpEntry) (logs0 : List LogEntry)
    (lists : List (List Accessory))
    (hf : findBridges hosts out = (some entries, logs0))
    (hp : sequenceProbes ((entries.map (fun en => en.internalipaddress)).map probeOf)
        = .ok lists)
    (hsum : (lists.map List.length).sum ≤ 99) :
    (accessories hosts out probeOf).callbackValue = some lists.flatten
    ∧ lists.flatten.length = (lists.map List.length).sum := by
  have hlen : lists.flatten.length ≤ 99 := by
    rw [List.length_flatten]
    exact hsum
  rw [accessories_of_probe_ok hosts out probeOf entries logs0 lists hf hp]
  exact ⟨by simp [List.take_of_length_le hlen], List.length_flatten lists⟩

/-- Witness for C6: one bridge returning a single accessory. -/
theorem aggregate_under_cap_witness :
    (accessories (some ["10.0.0.5"]) (DiscoveryOutcome.response 200 [])
        (fun _ => Except.ok [{ name := "lamp" }])).callbackValue
      = some ([[({ name := "lamp" } : Accessory)]].flatten) :=
  (aggregate_under_cap (some ["10.0.0.5"]) (DiscoveryOutcome.response 200 [])
    (fun _ => Except.ok [{ name := "lamp" }])
    [{ internalipaddress := some "10.0.0.5" }] [] [[{ name := "lamp" }]]
    rfl rfl (by simp)).1

/-- C1: on a successful aggregation with per-bridge accessory counts
summing to more than 99, the callback receives exactly the first 99
accessories in flattened order, one removal error naming each dropped
accessory is logged (sum − 99 of them), and on no run whatsoever does the
exposed accessory list exceed 99 entries. -/
theorem aggregate_cap_overflow (hosts : Option (List String))
    (out : DiscoveryOutcome)
    (probeOf : Option String → Except JsError (List Accessory))
    (entries : List NupnpEntry) (logs0 : List LogEntry)
    (lists : List (List Accessory))
    (hf : findBridges hosts out = (some entries, logs0))
    (hp : sequenceProbes ((entries.map (fun en => en.internalipaddress)).map probeOf)
        = .ok lists)
    (hsum : (lists.map List.length).sum > 99) :
    (accessories hosts out probeOf).callbackValue
      = some (lists.flatten.take 99)
    ∧ (lists.flatten.take 99).length = 99
    ∧ (accessories hosts out probeOf).logs.filter LogEntry.isError
        = ((lists.flatten.drop 99).reverse).map tooManyLog
    ∧ (((lists.flatten.drop 99).reverse).map tooManyLog).length
        = (lists.map List.length).sum - 99
    ∧ ∀ (hosts2 : Option (List String)) (out2 : DiscoveryOutcome)
        (probeOf2 : Option String → Except JsError (List Accessory))
        (l : List Accessory),
        (accessories hosts2 out2 probeOf2).callbackValue = some l →
        l.length ≤ 99 := by
  have hflat : lists.flatten.length = (lists.map List.length).sum :=
    List.length_flatten lists
  rw [accessories_of_probe_ok hosts out probeOf entries logs0 lists hf hp]
  refine ⟨rfl, ?_, ?_, ?_, ?_⟩
  · rw [List.length_take]
    omega
  · simp only [List.filter_append]
    rw [findBridges_ok_no_error hosts out entries logs0 hf,
        probeLogsOf_no_error, tooManyLog_filter]
    simp
  · simp only [List.length_map, List.length_reverse, List.length_drop]
    omega
  · intro hosts2 out2 probeOf2 l hl
    rcases hfb : findBridges hosts2 out2 with ⟨j, lg⟩
    cases j with
    | none =>
      rw [accessories_of_findBridges_none hosts2 out2 probeOf2 lg hfb] at hl
      simp at hl
    | some entries2 =>
      cases hsp : sequenceProbes
          ((entries2.map (fun en => en.internalipaddress)).map probeOf2) with
      | error e =>
        rw [accessories_of_probe_error hosts2 out2 probeOf2 entries2 lg e
          hfb hsp] at hl
        simp at hl
      | ok ls =>
        rw [accessories_of_probe_ok hosts2 out2 probeOf2 entries2 lg ls
          hfb hsp] at hl
        simp only [Option.some.injEq] at hl
        rw [← hl, List.length_take]
        omega

/-- Witness for C1: one bridge returning 100 accessories. -/
theorem aggregate_cap_overflow_witness :
    (accessories (some ["h"]) (DiscoveryOutcome.response 200 [])
        (fun _ => Except.ok (List.replicate 100 { name := "lamp" }))).callbackValue
      = some (([List.replicate 100 ({ name := "lamp" } : Accessory)].flatten).take 99)
    ∧ (([List.replicate 100 ({ name := "lamp" } : Accessory)].flatten).take 99).length
      = 99 := by
  have h := aggregate_cap_overflow (some ["h"]) (DiscoveryOutcome.response 200 [])
    (fun _ => Except.ok (List.replicate 100 { name := "lamp" }))
    [{ internalipaddress := some "h" }] []
    [List.replicate 100 { name := "lamp" }]
    rfl rfl (by simp)
  exact ⟨h.1, h.2.1⟩

/-- C4: on a successful aggregation run, the heartbeat scheduler is
started if and only if the accessory list handed to the callback is
non-empty (cap truncation to 99 of a longer list never empties it, so
truncation cannot change whether the scheduler starts). -/
theorem aggregate_scheduler_iff (hosts : Option (List String))
    (out : DiscoveryOutcome)
    (probeOf : Option String → Except JsError (List Accessory))
    (entries : List NupnpEntry) (logs0 : List LogEntry)
    (lists : List (List Accessory))
    (hf : findBridges hosts out = (some entries, logs0))
    (hp : sequenceProbes ((entries.map (fun en => en.internalipaddress)).map probeOf)
        = .ok lists) :
    (accessories hosts out probeOf).schedulerStarted = true
      ↔ ∃ l, (accessories hosts out probeOf).callbackValue = some l
          ∧ l ≠ [] := by
  rw [accessories_of_probe_ok hosts out probeOf entries logs0 lists hf hp]
  constructor
  · intro h
    simp only [decide_eq_true_eq] at h
    refine ⟨lists.flatten.take 99, rfl, ?_⟩
    intro e
    have h2 : (lists.flatten.take 99).length = 0 := by
      rw [e]
      rfl
    rw [List.length_take] at h2
    omega
  · rintro ⟨l, hl, hne⟩
    simp only [Option.some.injEq] at hl
    simp only [decide_eq_true_eq]
    by_contra hz
    apply hne
    rw [← hl]
    have hnil : lists.flatten = [] := by
      apply List.eq_nil_of_length_eq_zero
      omega
    rw [hnil]
    rfl

/-- Witness for C4: a run whose single bridge returns one accessory
starts the scheduler. -/
theorem aggregate_scheduler_iff_witness :
    (accessories (some ["h"]) (DiscoveryOutcome.response 200 [])
        (fun _ => Except.ok [{ name := "lamp" }])).schedulerStarted = true := by
  refine (aggregate_scheduler_iff (some ["h"]) (DiscoveryOutcome.response 200 [])
    (fun _ => Except.ok [{ name := "lamp" }])
    [{ internalipaddress := some "h" }] [] [[{ name := "lamp" }]]
    rfl rfl).mpr ?_
  refine ⟨[{ name := "lamp" }], ?_, by simp⟩
  rw [accessories_of_probe_ok (some ["h"]) (DiscoveryOutcome.response 200 [])
    (fun _ => Except.ok [{ name := "lamp" }])
    [{ internalipaddress := some "h" }] [] [[{ name := "lamp" }]] rfl rfl]
  rfl

/-- C2: if any one of the per-bridge probes fails, the whole aggregation
fails: the callback is never invoked (no partial accessory list), the
heartbeat scheduler is never started, and the only error logged is the
rejection's message when it is present (nothing when it is absent). -/
theorem aggregate_probe_failure (hosts : Option (List String))
    (out : DiscoveryOutcome)
    (probeOf : Option String → Except JsError (List Accessory))
    (entries : List NupnpEntry) (logs0 : List LogEntry) (e : JsError)
    (hf : findBridges hosts out = (some entries, logs0))
    (he : Except.error e ∈ (entries.map (fun en => en.internalipaddress)).map probeOf) :
    (accessories hosts out probeOf).callbackValue = none
    ∧ (accessories hosts out probeOf).schedulerStarted = false
    ∧ ∃ e2, sequenceProbes
          ((entries.map (fun en => en.internalipaddress)).map probeOf)
        = .error e2
      ∧ (accessories hosts out probeOf).logs.filter LogEntry.isError
        = catchLogs e2 := by
  obtain ⟨e2, hsp⟩ := sequenceProbes_error_of_mem _ e he
  rw [accessories_of_probe_error hosts out probeOf entries logs0 e2 hf hsp]
  refine ⟨rfl, rfl, e2, hsp, ?_⟩
  simp only [List.filter_append]
  rw [findBridges_ok_no_error hosts out entries logs0 hf,
      probeLogsOf_no_error, catchLogs_filter]
  simp

/-- A probe oracle for the C2 witness: the bridge at `a` answers with one
accessory, every other bridge rejects with message `dead bridge`. -/
def probeW : Option String → Except JsError (List Accessory)
  | some "a" => Except.ok [{ name := "lamp" }]
  | _ => Except.error { message := some "dead bridge" }

/-- Witness for C2: two bridges, the first succeeding and the second
failing; no callback and no scheduler. -/
theorem aggregate_probe_failure_witness :
    (accessories (some ["a", "b"]) (DiscoveryOutcome.response 200 [])
        probeW).callbackValue = none
    ∧ (accessories (some ["a", "b"]) (DiscoveryOutcome.response 200 [])
        probeW).schedulerStarted = false := by
  have h := aggregate_probe_failure (some ["a", "b"])
    (DiscoveryOutcome.response 200 []) probeW
    [{ internalipaddress := some "a" }, { internalipaddress := some "b" }]
    [] { message := some "dead bridge" } rfl (by simp [probeW])
  exact ⟨h.1, h.2.1⟩

/-- Counterexample for C3 as stated: when the portal reports an empty
array, `findBridges` passes `null` to its callback — not an empty
sequence — and `accessories` never invokes the homebridge callback at
all, rather than returning an empty accessory sequence. -/
theorem findBridges_failure_counterexample :
    (findBridges none (DiscoveryOutcome.response 200 [])).1 = none
    ∧ (findBridges none (DiscoveryOutcome.response 200 [])).1 ≠ some []
    ∧ (accessories none (DiscoveryOutcome.response 200 [])
        (fun _ => Except.ok [])).callbackValue = none
    ∧ (accessories none (DiscoveryOutcome.response 200 [])
        (fun _ => Except.ok [])).callbackValue ≠ some [] := by
  refine ⟨rfl, by simp [findBridges], ?_, ?_⟩
  · rw [accessories_of_findBridges_none none (DiscoveryOutcome.response 200 [])
      (fun _ => Except.ok [])
      [LogEntry.debug "contacting meethue portal",
       LogEntry.error "meethue portal: no bridges registered"] rfl]
  · rw [accessories_of_findBridges_none none (DiscoveryOutcome.response 200 [])
      (fun _ => Except.ok [])
      [LogEntry.debug "contacting meethue portal",
       LogEntry.error "meethue portal: no bridges registered"] rfl]
    simp

/-- C3 (amended): on a transport error, a non-200 status, or an empty
response body, `findBridges` logs exactly one error and passes `null` (not
an empty sequence) to its callback; downstream, `accessories` creates
zero bridges, never invokes the homebridge callback (so no accessory
sequence of any kind is returned), and never starts the scheduler. -/
theorem findBridges_failure_degrades (out : DiscoveryOutcome)
    (probeOf : Option String → Except JsError (List Accessory))
    (hfail : (∃ e, out = .transportError e)
      ∨ (∃ s body, out = .response s body ∧ s ≠ 200)
      ∨ (∃ s, out = .response s [])) :
    (findBridges none out).1 = none
    ∧ ((findBridges none out).2.filter LogEntry.isError).length = 1
    ∧ (accessories none out probeOf).bridges = []
    ∧ (accessories none out probeOf).callbackValue = none
    ∧ (accessories none out probeOf).schedulerStarted = false := by
  have hfb : (findBridges none out).1 = none
      ∧ ((findBridges none out).2.filter LogEntry.isError).length = 1 := by
    rcases hfail with ⟨e, rfl⟩ | ⟨s, body, rfl, hs⟩ | ⟨s, rfl⟩
    · simp [findBridges, LogEntry.isError]
    · simp [findBridges, hs, LogEntry.isError]
    · by_cases hs : s = 200
      · subst hs
        simp [findBridges, LogEntry.isError]
      · simp [findBridges, hs, LogEntry.isError]
  have hacc := accessories_of_findBridges_none none out probeOf
    (findBridges none out).2
    (by rw [← hfb.1])
  rw [hacc]
  exact ⟨hfb.1, hfb.2, rfl, rfl, rfl⟩

/-- Witness for C3 (amended) at the empty-array response. -/
theorem findBridges_failure_degrades_witness :
    (findBridges none (DiscoveryOutcome.response 200 [])).1 = none
    ∧ (accessories none (DiscoveryOutcome.response 200 [])
        (fun _ => Except.ok [])).schedulerStarted = false := by
  have h := findBridges_failure_degrades (DiscoveryOutcome.response 200 [])
    (fun _ => Except.ok []) (Or.inr (Or.inr ⟨200, rfl⟩))
  exact ⟨h.1, h.2.2.2.2⟩

/-- Counterexample for C8 as stated: a 200 response whose single entry
lacks the `internalipaddress` field is passed through as a successful
discovery — no error is logged, the entry is not rejected, and it becomes
a bridge whose address is missing. -/
theorem findBridges_missing_field_counterexample :
    (findBridges none
        (DiscoveryOutcome.response 200 [{ internalipaddress := none }])).1
      = some [{ internalipaddress := none }]
    ∧ (findBridges none
        (DiscoveryOutcome.response 200 [{ internalipaddress := none }])).1
      ≠ none
    ∧ ((findBridges none
        (DiscoveryOutcome.response 200 [{ internalipaddress := none }])).2.filter
          LogEntry.isError) = []
    ∧ (accessories none
        (DiscoveryOutcome.response 200 [{ internalipaddress := none }])
        (fun _ => Except.ok [])).bridges = [none] := by
  refine ⟨rfl, by simp [findBridges], by simp [findBridges, LogEntry.isError], ?_⟩
  rw [accessories_of_probe_ok none
    (DiscoveryOutcome.response 200 [{ internalipaddress := none }])
    (fun _ => Except.ok []) [{ internalipaddress := none }]
    [LogEntry.debug "contacting meethue portal"] [[]] rfl rfl]
  rfl

/-- C8 (amended): `findBridges` performs no validation of response
entries: any non-empty body of a 200 response is passed through
unchanged, entries lacking the `internalipaddress` field included, and
each such entry yields a bridge with a missing address; only transport
errors, non-200 statuses, and empty bodies are treated as discovery
failure. -/
theorem findBridges_no_field_validation (body : List NupnpEntry)
    (probeOf : Option String → Except JsError (List Accessory))
    (hne : body ≠ []) :
    (findBridges none (DiscoveryOutcome.response 200 body)).1 = some body
    ∧ ((findBridges none (DiscoveryOutcome.response 200 body)).2.filter
        LogEntry.isError) = []
    ∧ (accessories none (DiscoveryOutcome.response 200 body) probeOf).bridges
      = body.map (fun en => en.internalipaddress) := by
  have hlen : body.length ≠ 0 := by
    intro h
    exact hne (List.eq_nil_of_length_eq_zero h)
  have hfb : findBridges none (DiscoveryOutcome.response 200 body)
      = (some body, [LogEntry.debug "contacting meethue portal"]) := by
    simp [findBridges, hlen]
  refine ⟨by rw [hfb], by rw [hfb]; rfl, ?_⟩
  cases hsp : sequenceProbes ((body.map (fun en => en.internalipaddress)).map probeOf) with
  | error e =>
    rw [accessories_of_probe_error none (DiscoveryOutcome.response 200 body)
      probeOf body [LogEntry.debug "contacting meethue portal"] e hfb hsp]
  | ok ls =>
    rw [accessories_of_probe_ok none (DiscoveryOutcome.response 200 body)
      probeOf body [LogEntry.debug "contacting meethue portal"] ls hfb hsp]

/-- Witness for C8 (amended) at a body whose only entry lacks the
address field. -/
theorem findBridges_no_field_validation_witness :
    (findBridges none
        (DiscoveryOutcome.response 200 [{ internalipaddress := none }])).1
      = some [{ internalipaddress := none }]
    ∧ (accessories none
        (DiscoveryOutcome.response 200 [{ internalipaddress := none }])
        (fun _ => Except.ok [])).bridges = [none] := by
  have h := findBridges_no_field_validation [{ internalipaddress := none }]
    (fun _ => Except.ok []) (by simp)
  exact ⟨h.1, h.2.2⟩
